import Mathlib

/-!
Verification of the Hackflight RC receiver pipeline (receiver.hpp).

Shallow embedding conventions:
* C++ `float` is modelled as `ℚ` (exact rational arithmetic); the source's
  numeric formulas are translated operation for operation.
* The mutable `Receiver` object is a Lean structure; member functions become
  state-passing functions `Receiver → Receiver` (or `Receiver → α` for pure
  reads, i.e. bodies with no member assignment).
* `uint8_t` bit operations (`>>= 2`, `|= 0x80`) are modelled on `ℕ`
  (the values stay below 256 throughout, so no wraparound occurs).
* The virtual `readChannel` is a parameter `read : Fin 5 → ℚ`; `useSerial`
  selects between `update_direct` and `update_filtered`.
* In `Receiver::update`, the averaging buffer `averageRaw[5][4]` is a local
  variable of the function, so its initial contents on entry are
  indeterminate; `update_filtered` therefore takes the entry contents as an
  explicit parameter `garbage`.
-/

namespace Hackflight

/-- Modelled from the spec: the channel indices come from `config.hpp`, which
is not among the provided sources.  Spec section 3 fixes the role order as
ROLL, PITCH, YAW, THROTTLE, AUX. -/
def DEMAND_ROLL : Fin 4 := 0

/-- Modelled from the spec: channel order ROLL, PITCH, YAW, THROTTLE, AUX. -/
def DEMAND_PITCH : Fin 4 := 1

/-- Modelled from the spec: channel order ROLL, PITCH, YAW, THROTTLE, AUX. -/
def DEMAND_YAW : Fin 4 := 2

/-- Modelled from the spec: channel order ROLL, PITCH, YAW, THROTTLE, AUX. -/
def DEMAND_THROTTLE : Fin 4 := 3

/-- Modelled from the spec: `ReceiverConfig` is declared in the missing
`config.hpp`; spec section 3 lists its five numeric fields. -/
structure ReceiverConfig where
  margin : ℚ
  pitchRollExpo : ℚ
  pitchRollRate : ℚ
  throttleExpo : ℚ
  throttleMid : ℚ
  deriving DecidableEq

/-- The `Receiver` object state: the data members of class `Receiver` in
receiver.hpp (`rawvals[CONFIG_RC_CHANS]` with 5 channels used, `commands[4]`,
`sticks`, `commandDelay`, `averageIndex`, `config`). -/
structure Receiver where
  rawvals : Fin 5 → ℚ
  commands : Fin 4 → ℚ
  sticks : ℕ
  commandDelay : ℕ
  averageIndex : ℤ
  config : ReceiverConfig

/-- Receiver::init: `begin()` is hardware-only; the config is copied and
`commandDelay`, `sticks`, `averageIndex` are zeroed.  The members `rawvals`
and `commands` are not written by `init`, so their (indeterminate) initial
contents are parameters. -/
def Receiver.init (cfg : ReceiverConfig) (rawvals0 : Fin 5 → ℚ)
    (commands0 : Fin 4 → ℚ) : Receiver :=
  { rawvals := rawvals0
    commands := commands0
    sticks := 0
    commandDelay := 0
    averageIndex := 0
    config := cfg }

/-- One iteration of the stick-position loop in `Receiver::update`:
`stTmp >>= 2; if (rawvals[i] > -1 + margin) stTmp |= 0x80; if (rawvals[i] < +1 - margin) stTmp |= 0x40;`. -/
def stickStep (cfg : ReceiverConfig) (st : ℕ) (r : ℚ) : ℕ :=
  let st1 := st / 4
  let st2 := if r > -1 + cfg.margin then st1 ||| 0x80 else st1
  if r < 1 - cfg.margin then st2 ||| 0x40 else st2

/-- The stick-position loop of `Receiver::update` run over the four
flight-demand channels `i = 0,1,2,3`, starting from `stTmp = 0`. -/
def computeSticks (cfg : ReceiverConfig) (raw : Fin 5 → ℚ) : ℕ :=
  stickStep cfg (stickStep cfg (stickStep cfg (stickStep cfg 0 (raw 0)) (raw 1)) (raw 2)) (raw 3)

/-- The value of one channel's 2-bit pair as `Receiver::update` computes it:
high bit when `raw > -1 + margin`, low bit when `raw < 1 - margin`. -/
def pairVal (cfg : ReceiverConfig) (r : ℚ) : ℕ :=
  (if r > -1 + cfg.margin then 2 else 0) + (if r < 1 - cfg.margin then 1 else 0)

/-- The stick phase of `Receiver::update` (lines after sampling): recompute
`stTmp`, update `commandDelay` (increment saturating at 250 when the code is
unchanged, reset to 0 otherwise) and store the new code in `sticks`. -/
def stickPhase (s : Receiver) (newRaw : Fin 5 → ℚ) : Receiver :=
  let st := computeSticks s.config newRaw
  { s with
    rawvals := newRaw
    sticks := st
    commandDelay :=
      if st = s.sticks then
        (if s.commandDelay < 250 then s.commandDelay + 1 else s.commandDelay)
      else 0 }

/-- Receiver::update in the serial (direct) branch: `rawvals[chan] = readChannel(chan)` for the 5 channels, then the stick phase. -/
def update_direct (s : Receiver) (read : Fin 5 → ℚ) : Receiver :=
  stickPhase s read

/-- The value `rawvals[chan]` receives in the non-serial branch of
`Receiver::update`.  The buffer `averageRaw[5][4]` is a local variable of
`update`: its contents on entry are the indeterminate stack values `garbage`.
The slot `averageIndex % 4` of each channel is overwritten with the fresh
reading and the result is the mean of the 4 slots. -/
def filteredRaw (s : Receiver) (read : Fin 5 → ℚ)
    (garbage : Fin 5 → Fin 4 → ℚ) : Fin 5 → ℚ :=
  let slot : ℤ := s.averageIndex % 4
  let buf : Fin 5 → Fin 4 → ℚ := fun chan i =>
    if (i : ℤ) = slot then read chan else garbage chan i
  fun chan => (0 + buf chan 0 + buf chan 1 + buf chan 2 + buf chan 3) / 4

/-- Receiver::update in the non-serial (filtered) branch: write the fresh
readings into slot `averageIndex % 4`, average, increment `averageIndex`,
then the stick phase. -/
def update_filtered (s : Receiver) (read : Fin 5 → ℚ)
    (garbage : Fin 5 → Fin 4 → ℚ) : Receiver :=
  { stickPhase s (filteredRaw s read garbage) with averageIndex := s.averageIndex + 1 }

/-- Receiver::changed: reads `commandDelay == 20`, writes no member.  Modelled
as a value/state pair to record that the object is untouched. -/
def Receiver.changed (s : Receiver) : Bool × Receiver :=
  (s.commandDelay == 20, s)

/-- Receiver::rcFun: `(1 + e*(x*x - 1)) * x * r`. -/
def rcFun (x e r : ℚ) : ℚ :=
  (1 + e * (x * x - 1)) * x * r

/-- Receiver::throttleFun: `tmp = x - mid; y = tmp>0 ? 1-mid : (tmp<0 ? mid : 1); mid + tmp*(1-e + e*(tmp*tmp)/(y*y))`. -/
def throttleFun (x e mid : ℚ) : ℚ :=
  let tmp := x - mid
  let y := if tmp > 0 then 1 - mid else (if tmp < 0 then mid else 1)
  mid + tmp * (1 - e + e * (tmp * tmp) / (y * y))

/-- Receiver::makePositiveCommand: `commands[channel] = std::abs(rawvals[channel])`. -/
def makePositiveCommand (s : Receiver) (channel : Fin 4) : Receiver :=
  { s with commands := Function.update s.commands channel |s.rawvals channel.castSucc| }

/-- Receiver::applyPitchRollFunction: `commands[channel] = rcFun(commands[channel], pitchRollExpo, pitchRollRate)`. -/
def applyPitchRollFunction (s : Receiver) (channel : Fin 4) : Receiver :=
  { s with commands := (Function.update s.commands channel
      (rcFun (s.commands channel) s.config.pitchRollExpo s.config.pitchRollRate)) }

/-- Receiver::adjustCommand: `commands[channel] /= 2; if (rawvals[channel] < 0) commands[channel] = -commands[channel];`. -/
def adjustCommand (s : Receiver) (channel : Fin 4) : Receiver :=
  let c := s.commands channel / 2
  { s with commands := (Function.update s.commands channel
      (if s.rawvals channel.castSucc < 0 then -c else c)) }

/-- Receiver::computeExpo, step for step in source order. -/
def computeExpo (s : Receiver) : Receiver :=
  let s1 := makePositiveCommand s DEMAND_ROLL
  let s2 := makePositiveCommand s1 DEMAND_PITCH
  let s3 := makePositiveCommand s2 DEMAND_YAW
  let s4 := applyPitchRollFunction s3 DEMAND_ROLL
  let s5 := applyPitchRollFunction s4 DEMAND_PITCH
  let s6 := adjustCommand s5 DEMAND_ROLL
  let s7 := adjustCommand s6 DEMAND_PITCH
  let s8 := adjustCommand s7 DEMAND_YAW
  let s9 := { s8 with commands :=
    (Function.update s8.commands DEMAND_YAW (-(s8.commands DEMAND_YAW))) }
  let tmp := (s9.rawvals DEMAND_THROTTLE.castSucc + 1) / 2
  { s9 with commands := (Function.update s9.commands DEMAND_THROTTLE
      (throttleFun tmp s9.config.throttleExpo s9.config.throttleMid)) }

/-- Receiver::getAuxState: `aux = rawvals[4]; return aux < 0 ? 0 : (aux < 0.4 ? 1 : 2)`; pure read, modelled with the untouched state. -/
def getAuxState (s : Receiver) : ℕ × Receiver :=
  ((if s.rawvals 4 < 0 then 0 else (if s.rawvals 4 < 2/5 then 1 else 2)), s)

/-- Receiver::throttleIsDown: `rawvals[DEMAND_THROTTLE] < -1 + margin`. -/
def throttleIsDown (s : Receiver) : Bool :=
  s.rawvals DEMAND_THROTTLE.castSucc < -1 + s.config.margin

/-- Truncation toward zero: the conversion a C++ `float` undergoes when it is
converted to an integer type (here `int16_t`), for in-range values. -/
def truncTowardZero (q : ℚ) : ℤ :=
  if 0 ≤ q then ⌊q⌋ else ⌈q⌉

/-- Receiver::scaleup: `(x - in_min) * (out_max - out_min) / (in_max - in_min) + out_min`, computed in float (here exact `ℚ`; `out_max - out_min` is exact
integer arithmetic in the source as well) and converted to the `int16_t`
return type. -/
def scaleup (x in_min in_max : ℚ) (out_min out_max : ℤ) : ℤ :=
  truncTowardZero ((x - in_min) * (((out_max : ℚ)) - ((out_min : ℚ))) / (in_max - in_min) + (out_min : ℚ))

/-- Scalar form of the roll/pitch pipeline inside `computeExpo`:
`makePositiveCommand`, then `applyPitchRollFunction`, then `adjustCommand`. -/
def shapePitchRoll (cfg : ReceiverConfig) (r : ℚ) : ℚ :=
  let v := rcFun |r| cfg.pitchRollExpo cfg.pitchRollRate
  if r < 0 then -(v / 2) else v / 2

/-- Scalar form of the yaw pipeline inside `computeExpo`:
`makePositiveCommand`, then `adjustCommand`, then the final negation. -/
def shapeYaw (r : ℚ) : ℚ :=
  -(if r < 0 then -(|r| / 2) else |r| / 2)

/-- Scalar form of the throttle pipeline inside `computeExpo`. -/
def shapeThrottle (cfg : ReceiverConfig) (r : ℚ) : ℚ :=
  throttleFun ((r + 1) / 2) cfg.throttleExpo cfg.throttleMid

/-- The packing order the spec claims: the MOST-significant pair holds the
FIRST flight-demand channel (roll), later channels following toward the
least-significant bits, with the per-channel pair bits exactly as the code
computes them.  Stated from the spec sentence, to be compared with
`computeSticks`. -/
def specPackMSBFirst (cfg : ReceiverConfig) (raw : Fin 5 → ℚ) : ℕ :=
  64 * pairVal cfg (raw 0) + 16 * pairVal cfg (raw 1)
    + 4 * pairVal cfg (raw 2) + pairVal cfg (raw 3)

/-- A well-formed configuration used in concrete scenarios: margin 0.1, the
other fields as in the spec's end-to-end scenario. -/
def scenarioConfig : ReceiverConfig :=
  { margin := 1/10
    pitchRollExpo := 1/2
    pitchRollRate := 1
    throttleExpo := 3/10
    throttleMid := 1/2 }

/-- Raw input of the end-to-end scenario: roll 0.6, pitch -0.6, yaw 0.3,
throttle 0.0, aux 0.5. -/
def scenarioRaw : Fin 5 → ℚ
  | 0 => 3/5
  | 1 => -3/5
  | 2 => 3/10
  | 3 => 0
  | 4 => 1/2

/-- The receiver after `init`, one direct-mode `update()` with the scenario
input, and `computeExpo()`. -/
def scenarioState : Receiver :=
  computeExpo (update_direct
    (Receiver.init scenarioConfig (fun _ => 0) (fun _ => 0)) scenarioRaw)

/-- Raw input with the roll stick held at its minimum and every other
channel centered. -/
def rollLowRaw : Fin 5 → ℚ
  | 0 => -1
  | _ => 0

/-- Raw input with every channel centered. -/
def centeredRaw : Fin 5 → ℚ := fun _ => 0

/-- A receiver state holding the stick code of `centeredRaw` (255) with the
debounce counter at 0: the state right after a combination change was
registered. -/
def holdStart : Receiver :=
  { rawvals := centeredRaw
    commands := fun _ => 0
    sticks := 255
    commandDelay := 0
    averageIndex := 0
    config := scenarioConfig }

/-- The formula the claim gives for `scaleup`, written from the spec:
`(x - in_min) * (out_max - out_min) / (in_max - in_min) + out_min`, converted
to the integer return type.  Stated to be compared with `scaleup`. -/
def scaleupSpec (x in_min in_max : ℚ) (out_min out_max : ℤ) : ℤ :=
  truncTowardZero ((x - in_min) * (((out_max - out_min : ℤ) : ℚ)) / (in_max - in_min) + ((out_min : ℤ) : ℚ))

/-! Helper lemmas about the stick-combination packing. -/

lemma pairVal_le_three (cfg : ReceiverConfig) (r : ℚ) : pairVal cfg r ≤ 3 := by
  unfold pairVal; split_ifs <;> norm_num

lemma lor_128 (a : ℕ) (h : a < 64) : a ||| 128 = a + 128 := by
  interval_cases a <;> rfl

lemma lor_64 (a : ℕ) (h : a < 64) : a ||| 64 = a + 64 := by
  interval_cases a <;> rfl

lemma lor_128_64 (a : ℕ) (h : a < 64) : (a + 128) ||| 64 = a + 192 := by
  interval_cases a <;> rfl

lemma stickStep_eq (cfg : ReceiverConfig) (st : ℕ) (r : ℚ) (h : st < 256) :
    stickStep cfg st r = st / 4 + 64 * pairVal cfg r := by
  have h4 : st / 4 < 64 := by omega
  unfold stickStep pairVal
  split_ifs with h1 h2 h2
  all_goals simp only [lor_128 _ h4, lor_64 _ h4, lor_128_64 _ h4]
  all_goals omega

/-- The packing loop of `Receiver::update`, in closed form: the pair of the
FIRST channel ends in the two least-significant bits, the pair of the LAST
(fourth) channel in the two most-significant bits. -/
lemma computeSticks_eq (cfg : ReceiverConfig) (raw : Fin 5 → ℚ) :
    computeSticks cfg raw =
      64 * pairVal cfg (raw 3) + 16 * pairVal cfg (raw 2)
        + 4 * pairVal cfg (raw 1) + pairVal cfg (raw 0) := by
  have p0 := pairVal_le_three cfg (raw 0)
  have p1 := pairVal_le_three cfg (raw 1)
  have p2 := pairVal_le_three cfg (raw 2)
  have p3 := pairVal_le_three cfg (raw 3)
  unfold computeSticks
  rw [stickStep_eq cfg 0 (raw 0) (by norm_num)]
  rw [stickStep_eq cfg _ (raw 1) (by omega)]
  rw [stickStep_eq cfg _ (raw 2) (by omega)]
  rw [stickStep_eq cfg _ (raw 3) (by omega)]
  omega

lemma computeExpo_roll (s : Receiver) :
    (computeExpo s).commands DEMAND_ROLL = shapePitchRoll s.config (s.rawvals 0) := rfl

lemma computeExpo_pitch (s : Receiver) :
    (computeExpo s).commands DEMAND_PITCH = shapePitchRoll s.config (s.rawvals 1) := rfl

lemma computeExpo_yaw (s : Receiver) :
    (computeExpo s).commands DEMAND_YAW = shapeYaw (s.rawvals 2) := rfl

lemma computeExpo_throttle (s : Receiver) :
    (computeExpo s).commands DEMAND_THROTTLE = shapeThrottle s.config (s.rawvals 3) := rfl

lemma rcFun_zero (e r : ℚ) : rcFun 0 e r = 0 := by
  unfold rcFun; ring

lemma shapePitchRoll_neg (cfg : ReceiverConfig) (r : ℚ) :
    shapePitchRoll cfg (-r) = -(shapePitchRoll cfg r) := by
  unfold shapePitchRoll
  rcases lt_trichotomy r 0 with h | h | h
  · rw [abs_neg, if_neg (by linarith), if_pos h, neg_neg]
  · subst h
    simp [rcFun_zero]
  · rw [abs_neg, if_pos (by linarith), if_neg (by linarith)]

lemma shapeYaw_neg (r : ℚ) : shapeYaw (-r) = -(shapeYaw r) := by
  unfold shapeYaw
  rcases lt_trichotomy r 0 with h | h | h
  · rw [abs_neg, if_neg (by linarith), if_pos h, neg_neg]
  · subst h
    norm_num
  · rw [abs_neg, if_pos (by linarith), if_neg (by linarith), neg_neg]

lemma testBit_pack (a b c d : ℕ) (ha : a ≤ 3) (hb : b ≤ 3) (hc : c ≤ 3) (hd : d ≤ 3) :
    (64*d + 16*c + 4*b + a).testBit 0 = a.testBit 0 ∧
    (64*d + 16*c + 4*b + a).testBit 1 = a.testBit 1 ∧
    (64*d + 16*c + 4*b + a).testBit 2 = b.testBit 0 ∧
    (64*d + 16*c + 4*b + a).testBit 3 = b.testBit 1 ∧
    (64*d + 16*c + 4*b + a).testBit 4 = c.testBit 0 ∧
    (64*d + 16*c + 4*b + a).testBit 5 = c.testBit 1 ∧
    (64*d + 16*c + 4*b + a).testBit 6 = d.testBit 0 ∧
    (64*d + 16*c + 4*b + a).testBit 7 = d.testBit 1 := by
  interval_cases a <;> interval_cases b <;> interval_cases c <;> interval_cases d <;> decide

lemma pairVal_testBit_hi (cfg : ReceiverConfig) (r : ℚ) :
    (pairVal cfg r).testBit 1 = decide (r > -1 + cfg.margin) := by
  unfold pairVal
  split_ifs with h1 h2 h2 <;> simp [h1, h2] <;> decide

lemma pairVal_testBit_lo (cfg : ReceiverConfig) (r : ℚ) :
    (pairVal cfg r).testBit 0 = decide (r < 1 - cfg.margin) := by
  unfold pairVal
  split_ifs with h1 h2 h2 <;> simp [h1, h2]

lemma sticks_centered : computeSticks scenarioConfig centeredRaw = 255 := by
  rw [computeSticks_eq]
  norm_num [pairVal, scenarioConfig, centeredRaw]

lemma sticks_rollLow : computeSticks scenarioConfig rollLowRaw = 253 := by
  rw [computeSticks_eq]
  norm_num [pairVal, scenarioConfig, rollLowRaw]

lemma specPack_rollLow : specPackMSBFirst scenarioConfig rollLowRaw = 127 := by
  norm_num [specPackMSBFirst, pairVal, scenarioConfig, rollLowRaw]

/-- C1 (amended): in the stick-combination code, channel `i`'s pair occupies
bits `2i+1, 2i`; the bit the code's comment calls the MIN check (the high bit
of the pair) is set iff `raw > -1 + margin` (stick strictly ABOVE the
minimum margin), and the MAX-check bit (low bit) is set iff
`raw < 1 - margin` — the opposite polarity of the claim. -/
theorem C1_bit_semantics (cfg : ReceiverConfig) (raw : Fin 5 → ℚ) :
    ((computeSticks cfg raw).testBit 1 = true ↔ raw 0 > -1 + cfg.margin)
  ∧ ((computeSticks cfg raw).testBit 0 = true ↔ raw 0 < 1 - cfg.margin)
  ∧ ((computeSticks cfg raw).testBit 3 = true ↔ raw 1 > -1 + cfg.margin)
  ∧ ((computeSticks cfg raw).testBit 2 = true ↔ raw 1 < 1 - cfg.margin)
  ∧ ((computeSticks cfg raw).testBit 5 = true ↔ raw 2 > -1 + cfg.margin)
  ∧ ((computeSticks cfg raw).testBit 4 = true ↔ raw 2 < 1 - cfg.margin)
  ∧ ((computeSticks cfg raw).testBit 7 = true ↔ raw 3 > -1 + cfg.margin)
  ∧ ((computeSticks cfg raw).testBit 6 = true ↔ raw 3 < 1 - cfg.margin) := by
  rw [computeSticks_eq]
  obtain ⟨h0, h1, h2, h3, h4, h5, h6, h7⟩ :=
    testBit_pack (pairVal cfg (raw 0)) (pairVal cfg (raw 1))
      (pairVal cfg (raw 2)) (pairVal cfg (raw 3))
      (pairVal_le_three cfg (raw 0)) (pairVal_le_three cfg (raw 1))
      (pairVal_le_three cfg (raw 2)) (pairVal_le_three cfg (raw 3))
  simp only [h0, h1, h2, h3, h4, h5, h6, h7, pairVal_testBit_hi, pairVal_testBit_lo,
    decide_eq_true_eq]
  tauto

/-- C1 counterexample: margin 0.1, roll raw −1 (at its minimum), all other
channels centered.  The claim says the roll pair's near-minimum bit should
be SET (since −1 < −1 + 0.1) and its near-maximum bit clear, giving a code
with exactly one of the 8 bits set; the code computed by `update` is 253,
the roll pair's MIN-check bit (bit 1) is CLEAR, its MAX-check bit (bit 0)
is SET, and 7 of the 8 bits are set — no assignment of pairs to channels
matches the claim. -/
theorem C1_counterexample :
    (computeSticks scenarioConfig rollLowRaw).testBit 1 = false
  ∧ rollLowRaw 0 < -1 + scenarioConfig.margin
  ∧ (computeSticks scenarioConfig rollLowRaw).testBit 0 = true
  ∧ ¬(rollLowRaw 0 > 1 - scenarioConfig.margin)
  ∧ (List.range 8).countP (fun j => (computeSticks scenarioConfig rollLowRaw).testBit j) = 7
  ∧ ((if rollLowRaw 0 < -1 + scenarioConfig.margin ∨ rollLowRaw 0 > 1 - scenarioConfig.margin then 1 else 0)
      + (if rollLowRaw 1 < -1 + scenarioConfig.margin ∨ rollLowRaw 1 > 1 - scenarioConfig.margin then 1 else 0)
      + (if rollLowRaw 2 < -1 + scenarioConfig.margin ∨ rollLowRaw 2 > 1 - scenarioConfig.margin then 1 else 0)
      + (if rollLowRaw 3 < -1 + scenarioConfig.margin ∨ rollLowRaw 3 > 1 - scenarioConfig.margin then 1 else 0)
      : ℕ) = 1 := by
  have h := sticks_rollLow
  refine ⟨by rw [h]; rfl, by norm_num [rollLowRaw, scenarioConfig], by rw [h]; rfl,
    by norm_num [rollLowRaw, scenarioConfig], ?_, ?_⟩
  · simp only [h]
    rfl
  · norm_num [rollLowRaw, scenarioConfig]

/-- C5 counterexample: at margin 0.1 with roll at its minimum and the other
channels centered, the code `update()` computes is 253, while packing the
same per-channel pairs most-significant-first (roll in bits 7..6, as the
claim states) would give 127. -/
theorem C5_counterexample :
    computeSticks scenarioConfig rollLowRaw = 253
  ∧ specPackMSBFirst scenarioConfig rollLowRaw = 127
  ∧ (253 : ℕ) ≠ 127 :=
  ⟨sticks_rollLow, specPack_rollLow, by norm_num⟩

/-- C5 (amended): the loop `stTmp >>= 2; stTmp |= ...` places the FIRST
flight-demand channel's pair in the LEAST-significant two bits and the last
(throttle) channel's pair in the most-significant two bits: the code equals
`64·pair(ch3) + 16·pair(ch2) + 4·pair(ch1) + pair(ch0)`. -/
theorem C5_pack_order (cfg : ReceiverConfig) (raw : Fin 5 → ℚ) :
    computeSticks cfg raw =
      64 * pairVal cfg (raw 3) + 16 * pairVal cfg (raw 2)
        + 4 * pairVal cfg (raw 1) + pairVal cfg (raw 0) :=
  computeSticks_eq cfg raw

/-- C2: evaluation of the code at the failing input.  Starting from `init`
(averageIndex 0) in filtered mode, with the external reader returning 1.0 on
every channel on 4 consecutive `update()` calls and the uninitialized local
`averageRaw` happening to contain 0.0 on each entry, the smoothed output is
0.25, not the raw input 1.0: the 4-slot history is a fresh local of each
call, so only one slot ever holds a sample. -/
theorem C2_filtered_local_buffer :
    ((fun t => update_filtered t (fun _ => 1) (fun _ _ => 0))^[4]
        (Receiver.init scenarioConfig (fun _ => 0) (fun _ => 0))).rawvals 0 = 1/4
  ∧ ((1 : ℚ)/4) ≠ 1 := by
  constructor
  · rw [show ((fun t => update_filtered t (fun _ => 1) (fun _ _ => 0))^[4]
          (Receiver.init scenarioConfig (fun _ => 0) (fun _ => 0)))
        = update_filtered ((fun t => update_filtered t (fun _ => 1) (fun _ _ => 0))^[3]
            (Receiver.init scenarioConfig (fun _ => 0) (fun _ => 0))) (fun _ => 1) (fun _ _ => 0)
      from Function.iterate_succ_apply' _ _ _]
    have havg : ((fun t => update_filtered t (fun _ => 1) (fun _ _ => 0))^[3]
        (Receiver.init scenarioConfig (fun _ => 0) (fun _ => 0))).averageIndex = 3 := rfl
    have hr : (update_filtered ((fun t => update_filtered t (fun _ => 1) (fun _ _ => 0))^[3]
        (Receiver.init scenarioConfig (fun _ => 0) (fun _ => 0))) (fun _ => 1) (fun _ _ => 0)).rawvals
        = filteredRaw ((fun t => update_filtered t (fun _ => 1) (fun _ _ => 0))^[3]
            (Receiver.init scenarioConfig (fun _ => 0) (fun _ => 0))) (fun _ => 1) (fun _ _ => 0) := rfl
    rw [hr]
    simp only [filteredRaw, havg]
    norm_num [show (((3 : Fin 4) : ℕ) : ℤ) = 3 from rfl]
  · norm_num

lemma hold_run (r : Fin 5 → ℚ) (s : Receiver)
    (hs : s.sticks = computeSticks s.config r) (h0 : s.commandDelay = 0) :
    ∀ n : ℕ, ((fun t => update_direct t r)^[n] s).config = s.config
      ∧ ((fun t => update_direct t r)^[n] s).sticks = computeSticks s.config r
      ∧ ((fun t => update_direct t r)^[n] s).commandDelay = min n 250 := by
  intro n
  induction n with
  | zero =>
    exact ⟨rfl, hs, by rw [Function.iterate_zero_apply]; omega⟩
  | succ k ih =>
    obtain ⟨hc, hst, hd⟩ := ih
    rw [Function.iterate_succ_apply']
    set t := (fun t => update_direct t r)^[k] s with ht
    simp only [update_direct, stickPhase]
    rw [hc, hst, if_pos rfl]
    refine ⟨rfl, rfl, ?_⟩
    rw [hd]
    split_ifs <;> omega

/-- C3 (confirmed): from a state whose stored code matches the held input
and whose counter is 0 (the state right after a combination change was
registered), `changed()` is true after exactly the 20th consecutive
unchanged cycle and false on every other cycle; and any cycle whose fresh
combination differs from the stored one resets the counter to 0. -/
theorem C3_debounce_timing (s : Receiver) (r : Fin 5 → ℚ)
    (h0 : s.commandDelay = 0) (hs : s.sticks = computeSticks s.config r) :
    (∀ n : ℕ, ((Receiver.changed ((fun t => update_direct t r)^[n] s)).1 = true ↔ n = 20))
  ∧ (∀ (t : Receiver) (r2 : Fin 5 → ℚ), computeSticks t.config r2 ≠ t.sticks →
      (update_direct t r2).commandDelay = 0) := by
  constructor
  · intro n
    have h := hold_run r s hs h0 n
    simp only [Receiver.changed, h.2.2, beq_iff_eq]
    omega
  · intro t r2 hne
    simp only [update_direct, stickPhase]
    rw [if_neg hne]

/-- C3 witness: holding all sticks centered (code 255) from a just-reset
state, `changed()` is false on cycle 19, true on cycle 20, false on
cycles 21 and 250. -/
theorem C3_debounce_timing_witness :
    ((Receiver.changed ((fun t => update_direct t centeredRaw)^[20] holdStart)).1 = true)
  ∧ ((Receiver.changed ((fun t => update_direct t centeredRaw)^[19] holdStart)).1 ≠ true)
  ∧ ((Receiver.changed ((fun t => update_direct t centeredRaw)^[21] holdStart)).1 ≠ true)
  ∧ ((Receiver.changed ((fun t => update_direct t centeredRaw)^[250] holdStart)).1 ≠ true) := by
  have h := C3_debounce_timing holdStart centeredRaw rfl sticks_centered.symm
  refine ⟨(h.1 20).mpr rfl, ?_, ?_, ?_⟩
  · intro hb
    exact absurd ((h.1 19).mp hb) (by norm_num)
  · intro hb
    exact absurd ((h.1 21).mp hb) (by norm_num)
  · intro hb
    exact absurd ((h.1 250).mp hb) (by norm_num)

/-- C8 (confirmed): the stick phase shared by both `update()` branches keeps
the counter within [0,250]; at 250 with an unchanged combination the
increment is a no-op and `changed()` is false; and both `update` branches
produce exactly the stick phase's counter. -/
theorem C8_saturation (s : Receiver) (nr r : Fin 5 → ℚ) (g : Fin 5 → Fin 4 → ℚ) :
    (s.commandDelay ≤ 250 → (stickPhase s nr).commandDelay ≤ 250)
  ∧ (s.commandDelay = 250 → computeSticks s.config nr = s.sticks →
      (stickPhase s nr).commandDelay = 250
        ∧ (Receiver.changed (stickPhase s nr)).1 = false)
  ∧ (update_direct s r).commandDelay = (stickPhase s r).commandDelay
  ∧ (update_filtered s r g).commandDelay = (stickPhase s (filteredRaw s r g)).commandDelay := by
  refine ⟨?_, ?_, rfl, rfl⟩
  · intro h
    simp only [stickPhase]
    split_ifs <;> omega
  · intro h250 heq
    simp only [stickPhase, Receiver.changed]
    rw [if_pos heq, h250]
    norm_num

/-- C8 witness: a state at counter 250 holding the centered-stick code. -/
theorem C8_saturation_witness :
    ((250 : ℕ) ≤ 250)
  ∧ (stickPhase { holdStart with commandDelay := 250 } centeredRaw).commandDelay = 250
  ∧ (Receiver.changed (stickPhase { holdStart with commandDelay := 250 } centeredRaw)).1 = false := by
  have h := C8_saturation { holdStart with commandDelay := 250 } centeredRaw centeredRaw (fun _ _ => 0)
  have h2 := h.2.1 rfl sticks_centered
  exact ⟨le_refl 250, h2.1, h2.2⟩

lemma truncTowardZero_intCast (z : ℤ) : truncTowardZero ((z : ℚ)) = z := by
  unfold truncTowardZero
  split_ifs <;> simp

/-- C4 counterexample: with the end-to-end scenario config and input, the
roll command the code computes is exactly 0.204 (= 51/250), not ≈ 0.2460 as
claimed: the two differ by 0.042. -/
theorem C4_counterexample :
    scenarioState.commands DEMAND_ROLL = 51/250
  ∧ ((51 : ℚ)/250 ≠ 246/1000)
  ∧ |((51 : ℚ)/250) - 246/1000| ≥ 4/100 := by
  refine ⟨?_, by norm_num, ?_⟩
  · show (computeExpo (update_direct (Receiver.init scenarioConfig
      (fun _ => 0) (fun _ => 0)) scenarioRaw)).commands DEMAND_ROLL = 51/250
    rw [computeExpo_roll]
    show shapePitchRoll scenarioConfig (scenarioRaw 0) = 51/250
    norm_num [shapePitchRoll, rcFun, scenarioConfig, scenarioRaw]
    rw [abs_of_pos (by norm_num : (0:ℚ) < 3/5)]
    norm_num
  · rw [show (51:ℚ)/250 - 246/1000 = -(21/500) from by norm_num, abs_neg,
      abs_of_pos (by norm_num : (0:ℚ) < 21/500)]
    norm_num

/-- C4 (amended): same scenario, with the roll/pitch values the code's own
formula produces: roll = 0.204, pitch = −0.204; yaw = −0.15, throttle = 0.5
and aux HIGH are as the claim states. -/
theorem C4_end_to_end :
    scenarioState.commands DEMAND_ROLL = 51/250
  ∧ scenarioState.commands DEMAND_PITCH = -(51/250)
  ∧ scenarioState.commands DEMAND_YAW = -(3/20)
  ∧ scenarioState.commands DEMAND_THROTTLE = 1/2
  ∧ (getAuxState scenarioState).1 = 2 := by
  refine ⟨?_, ?_, ?_, ?_, ?_⟩
  · rw [show scenarioState = computeExpo (update_direct (Receiver.init scenarioConfig
        (fun _ => 0) (fun _ => 0)) scenarioRaw) from rfl, computeExpo_roll]
    show shapePitchRoll scenarioConfig (scenarioRaw 0) = 51/250
    norm_num [shapePitchRoll, rcFun, scenarioConfig, scenarioRaw]
    rw [abs_of_pos (by norm_num : (0:ℚ) < 3/5)]
    norm_num
  · rw [show scenarioState = computeExpo (update_direct (Receiver.init scenarioConfig
        (fun _ => 0) (fun _ => 0)) scenarioRaw) from rfl, computeExpo_pitch]
    show shapePitchRoll scenarioConfig (scenarioRaw 1) = -(51/250)
    norm_num [shapePitchRoll, rcFun, scenarioConfig, scenarioRaw]
    rw [abs_of_pos (by norm_num : (0:ℚ) < 3/5)]
    norm_num
  · rw [show scenarioState = computeExpo (update_direct (Receiver.init scenarioConfig
        (fun _ => 0) (fun _ => 0)) scenarioRaw) from rfl, computeExpo_yaw]
    show shapeYaw (scenarioRaw 2) = -(3/20)
    norm_num [shapeYaw, scenarioRaw]
    rw [abs_of_pos (by norm_num : (0:ℚ) < 3/10)]
    norm_num
  · rw [show scenarioState = computeExpo (update_direct (Receiver.init scenarioConfig
        (fun _ => 0) (fun _ => 0)) scenarioRaw) from rfl, computeExpo_throttle]
    show shapeThrottle scenarioConfig (scenarioRaw 3) = 1/2
    norm_num [shapeThrottle, throttleFun, scenarioConfig, scenarioRaw]
  · show (if scenarioRaw 4 < 0 then 0 else (if scenarioRaw 4 < 2/5 then 1 else 2)) = 2
    norm_num [scenarioRaw]

/-- C6 (confirmed): negating the raw value of roll, pitch or yaw (leaving
the other channels unchanged) negates exactly that channel's shaped
command; yaw's final inversion is applied identically to both runs. -/
theorem C6_sign_symmetry (s : Receiver) :
    ((computeExpo { s with rawvals := Function.update s.rawvals 0 (-(s.rawvals 0)) }).commands DEMAND_ROLL
      = -((computeExpo s).commands DEMAND_ROLL))
  ∧ ((computeExpo { s with rawvals := Function.update s.rawvals 1 (-(s.rawvals 1)) }).commands DEMAND_PITCH
      = -((computeExpo s).commands DEMAND_PITCH))
  ∧ ((computeExpo { s with rawvals := Function.update s.rawvals 2 (-(s.rawvals 2)) }).commands DEMAND_YAW
      = -((computeExpo s).commands DEMAND_YAW)) := by
  refine ⟨?_, ?_, ?_⟩
  · rw [computeExpo_roll, computeExpo_roll]
    show shapePitchRoll s.config (Function.update s.rawvals 0 (-(s.rawvals 0)) 0)
      = -(shapePitchRoll s.config (s.rawvals 0))
    rw [Function.update_same]
    exact shapePitchRoll_neg s.config (s.rawvals 0)
  · rw [computeExpo_pitch, computeExpo_pitch]
    show shapePitchRoll s.config (Function.update s.rawvals 1 (-(s.rawvals 1)) 1)
      = -(shapePitchRoll s.config (s.rawvals 1))
    rw [Function.update_same]
    exact shapePitchRoll_neg s.config (s.rawvals 1)
  · rw [computeExpo_yaw, computeExpo_yaw]
    show shapeYaw (Function.update s.rawvals 2 (-(s.rawvals 2)) 2)
      = -(shapeYaw (s.rawvals 2))
    rw [Function.update_same]
    exact shapeYaw_neg (s.rawvals 2)

/-- C7 (confirmed): when raw throttle equals `2·throttleMid − 1`, the
rescaled value hits the midpoint, `d = 0` takes the guard branch `y = 1`,
and the shaped throttle equals `throttleMid` for every `throttleExpo`. -/
theorem C7_throttle_midpoint (s : Receiver)
    (h : s.rawvals 3 = 2 * s.config.throttleMid - 1) :
    (computeExpo s).commands DEMAND_THROTTLE = s.config.throttleMid := by
  rw [computeExpo_throttle]
  unfold shapeThrottle
  rw [h, show (2 * s.config.throttleMid - 1 + 1) / 2 = s.config.throttleMid from by ring]
  simp [throttleFun, sub_self]

/-- C7 witness: centered raw input with throttleMid = 0.5. -/
theorem C7_throttle_midpoint_witness :
    (holdStart.rawvals 3 = 2 * holdStart.config.throttleMid - 1)
  ∧ (computeExpo holdStart).commands DEMAND_THROTTLE = holdStart.config.throttleMid := by
  have h : holdStart.rawvals 3 = 2 * holdStart.config.throttleMid - 1 := by
    norm_num [holdStart, centeredRaw, scenarioConfig]
  exact ⟨h, C7_throttle_midpoint holdStart h⟩

/-- C9 (confirmed): when `in_min ≠ in_max`, `scaleup` returns exactly the
claimed formula, truncated to the integer return type. -/
theorem C9_scaleup_formula (x in_min in_max : ℚ) (out_min out_max : ℤ)
    (_h : in_min ≠ in_max) :
    scaleup x in_min in_max out_min out_max
      = scaleupSpec x in_min in_max out_min out_max := by
  unfold scaleup scaleupSpec
  congr 1
  push_cast
  ring

/-- C9 witness: mapping 0.5 from [−1,1] into [0,100] gives 75. -/
theorem C9_scaleup_formula_witness :
    ((-1 : ℚ) ≠ 1)
  ∧ scaleup (1/2) (-1) 1 0 100 = scaleupSpec (1/2) (-1) 1 0 100
  ∧ scaleup (1/2) (-1) 1 0 100 = 75 := by
  refine ⟨by norm_num, C9_scaleup_formula (1/2) (-1) 1 0 100 (by norm_num), ?_⟩
  unfold scaleup
  norm_num
  rw [show (75 : ℚ) = ((75 : ℤ) : ℚ) from by norm_cast, truncTowardZero_intCast]

/-- C10 (confirmed): `computeExpo` writes only the `commands` array, leaving
`rawvals`, `sticks`, `commandDelay`, `averageIndex` and the config
untouched; `changed()` and `getAuxState()` leave the whole state untouched,
so repeated calls return the same value. -/
theorem C10_frame_conditions (s : Receiver) :
    (computeExpo s).rawvals = s.rawvals
  ∧ (computeExpo s).sticks = s.sticks
  ∧ (computeExpo s).commandDelay = s.commandDelay
  ∧ (computeExpo s).averageIndex = s.averageIndex
  ∧ (computeExpo s).config = s.config
  ∧ (Receiver.changed s).2 = s
  ∧ (getAuxState s).2 = s
  ∧ (Receiver.changed ((Receiver.changed s).2)).1 = (Receiver.changed s).1
  ∧ (getAuxState ((getAuxState s).2)).1 = (getAuxState s).1 :=
  ⟨rfl, rfl, rfl, rfl, rfl, rfl, rfl, rfl, rfl⟩

end Hackflight
